import Mathlib

/-!
Shallow embedding of `pkg/yamlmeta/schema.go` from carvel-ytt: derivation of a
typed schema tree from a schema document whose values serve as exemplars.

Modelling conventions:
* A Go `interface{}` value of the yamlmeta data tree is the inductive `Value`.
  Go's nil interface (a YAML null) is `Value.vnull`; a value of a kind not
  handled by the type switch in `newCollectionItemValueType` (e.g. a float) is
  `Value.vother s` where `s` is irrelevant payload.
* A source position (`*filepos.Position`) is modelled as the string its
  `AsCompactString()` renders to, since the code only ever reads positions
  through that method when formatting error messages.
* Node metadata: each annotation-bearing node carries the list of names of the
  ytt annotations attached to it (`List String`).
* Go functions returning `(T, error)` become `Except String T`, with the error
  message string carried verbatim.
-/

namespace yamlmeta

/-- `structmeta.AnnotationName` value `AnnotationSchemaNullable` ("schema/nullable"). -/
def AnnotationSchemaNullable : String := "schema/nullable"

mutual

/-- A data-tree value (`interface{}` in Go): map, array, string, int, bool,
nil interface (YAML null), or a value of a kind unknown to the schema builder. -/
inductive Value where
  | vmap : Map → Value
  | varray : Array → Value
  | vstr : String → Value
  | vint : Int → Value
  | vbool : Bool → Value
  | vnull : Value
  | vother : String → Value

/-- `yamlmeta.Map`: ordered items plus the node's attached annotation names. -/
inductive Map where
  | mk : List MapItem → List String → Map

/-- `yamlmeta.MapItem`: key, value, position, attached annotation names. -/
inductive MapItem where
  | mk : String → Value → String → List String → MapItem

/-- `yamlmeta.Array`: ordered items, attached annotation names, position. -/
inductive Array where
  | mk : List ArrayItem → List String → String → Array

/-- `yamlmeta.ArrayItem`: value, position, attached annotation names. -/
inductive ArrayItem where
  | mk : Value → String → List String → ArrayItem

end

def Map.Items : Map → List MapItem
  | .mk items _ => items

def Map.metas : Map → List String
  | .mk _ ms => ms

def MapItem.Key : MapItem → String
  | .mk k _ _ _ => k

def MapItem.Value : MapItem → Value
  | .mk _ v _ _ => v

def MapItem.Position : MapItem → String
  | .mk _ _ p _ => p

def MapItem.metas : MapItem → List String
  | .mk _ _ _ ms => ms

def Array.Items : Array → List ArrayItem
  | .mk items _ _ => items

def Array.metas : Array → List String
  | .mk _ ms _ => ms

def Array.Position : Array → String
  | .mk _ _ p => p

def ArrayItem.Value : ArrayItem → Value
  | .mk v _ _ => v

def ArrayItem.GetPosition : ArrayItem → String
  | .mk _ p _ => p

def ArrayItem.metas : ArrayItem → List String
  | .mk _ _ ms => ms

/-- `yamlmeta.Document`: a document node; the schema builder only reads its
top-level `Value`. -/
structure Document where
  Value : Value
  Position : String

/-- Modelled from the spec: `template.NewAnnotations` (package
`pkg/template`, not part of the supplied source) — "given a data-tree node,
return the subset of its attached annotations whose name is schema-recognized
(presently exactly one: nullable). Output: a name-to-metadata mapping, possibly
empty; never fails." We model the mapping by the list of its keys: the node's
attached annotation names filtered to the schema-recognized ones. -/
def NewAnnotations (nodeMetas : List String) : List String :=
  nodeMetas.filter (fun n => n == AnnotationSchemaNullable)

mutual

/-- `yamlmeta.Type` (interface): one of the schema-type variants. -/
inductive SchemaType where
  | mapType : MapType → SchemaType
  | arrayType : ArrayType → SchemaType
  | scalarType : ScalarType → SchemaType

/-- `yamlmeta.MapType`: ordered sequence of item types. -/
inductive MapType where
  | mk : List MapItemType → MapType

/-- `yamlmeta.MapItemType`: Key, ValueType, DefaultValue (a data-tree value;
`Value.vnull` stands for Go's nil interface), Position, and the filtered
annotation-name set stored for later nullability queries. -/
inductive MapItemType where
  | mk : String → SchemaType → Value → String → List String → MapItemType

/-- `yamlmeta.ArrayType`: the single shared item type. -/
inductive ArrayType where
  | mk : ArrayItemType → ArrayType

/-- `yamlmeta.ArrayItemType`: the item's value type. -/
inductive ArrayItemType where
  | mk : SchemaType → ArrayItemType

/-- `yamlmeta.ScalarType`: wraps a concrete value whose dynamic kind is the
primitive kind (the code stores the kind's zero value, `*new(string)` etc.). -/
inductive ScalarType where
  | mk : Value → ScalarType

end

def MapType.Items : MapType → List MapItemType
  | .mk items => items

def MapItemType.Key : MapItemType → String
  | .mk k _ _ _ _ => k

def MapItemType.ValueType : MapItemType → SchemaType
  | .mk _ vt _ _ _ => vt

def MapItemType.DefaultValue : MapItemType → Value
  | .mk _ _ dv _ _ => dv

def MapItemType.Position : MapItemType → String
  | .mk _ _ _ p _ => p

def MapItemType.anns : MapItemType → List String
  | .mk _ _ _ _ a => a

def ArrayType.ItemsType : ArrayType → ArrayItemType
  | .mk t => t

def ArrayItemType.ValueType : ArrayItemType → SchemaType
  | .mk vt => vt

def ScalarType.Type : ScalarType → Value
  | .mk v => v

/-- `yamlmeta.DocumentType`: source back-reference and the (possibly absent,
i.e. Go-nil) value type. -/
structure DocumentType where
  Source : Document
  ValueType : Option SchemaType

/-- `yamlmeta.DocumentSchema`. -/
structure DocumentSchema where
  Name : String
  Source : Document
  Allowed : DocumentType

mutual

/-- `NewMapType` (schema.go:58-74): builds every item's `MapItemType` in
order, fail-fast; then, if the map node carries the nullable annotation,
discards the built items (`mapType.Items = nil`). -/
def NewMapType (m : Map) : Except String MapType :=
  match m with
  | .mk items ms => do
    let itemTypes ← NewMapItemTypes items
    if (NewAnnotations ms).contains AnnotationSchemaNullable then
      pure (MapType.mk [])
    else
      pure (MapType.mk itemTypes)

/-- The item loop of `NewMapType`: builds each `MapItemType` in order,
returning the first error. -/
def NewMapItemTypes : List MapItem → Except String (List MapItemType)
  | [] => pure []
  | item :: rest => do
    let t ← NewMapItemType item
    let ts ← NewMapItemTypes rest
    pure (t :: ts)

/-- `NewMapItemType` (schema.go:76-93): derives the value's type, computes the
default (the exemplar value; an empty array if the exemplar is an array; nil if
the item is annotated nullable), and stores the filtered annotations. -/
def NewMapItemType (item : MapItem) : Except String MapItemType :=
  match item with
  | .mk key value pos ms => do
    let valueType ← newCollectionItemValueType value
    let defaultValue :=
      match value with
      | .varray _ => Value.varray (Array.mk [] [] "")
      | v => v
    let anns := NewAnnotations ms
    let defaultValue :=
      if anns.contains AnnotationSchemaNullable then Value.vnull else defaultValue
    pure (MapItemType.mk key valueType defaultValue pos anns)

/-- `NewArrayType` (schema.go:95-110): exactly one exemplar item is required;
zero or more than one is an error naming the position (and, for more than one,
the actual count). -/
def NewArrayType (a : Array) : Except String ArrayType :=
  match a with
  | .mk items _ pos =>
    if items.length == 0 then
      throw ("Expected one item in array (describing the type of its elements) at " ++ pos)
    else if items.length > 1 then
      throw ("Expected one item (found " ++ toString items.length ++
        ") in array (describing the type of its elements) at " ++ pos)
    else do
      match items with
      | [item] => do
        let arrayItemType ← NewArrayItemType item
        pure (ArrayType.mk arrayItemType)
      | _ => throw ("Expected one item in array (describing the type of its elements) at " ++ pos)

/-- `NewArrayItemType` (schema.go:112-125): derives the value's type first,
then rejects the item if it carries the nullable annotation. -/
def NewArrayItemType (item : ArrayItem) : Except String ArrayItemType :=
  match item with
  | .mk value pos ms => do
    let valueType ← newCollectionItemValueType value
    if (NewAnnotations ms).contains AnnotationSchemaNullable then
      throw ("Array items cannot be annotated with #@schema/nullable (" ++ pos ++
        "). If this behaviour would be valuable, please submit an issue on https://github.com/vmware-tanzu/carvel-ytt")
    else
      pure (ArrayItemType.mk valueType)

/-- `newCollectionItemValueType` (schema.go:127-150): type switch on the
exemplar value's dynamic kind. A nil interface (YAML null) matches no case and
falls through to the error, as does any unrecognized kind. -/
def newCollectionItemValueType (collectionItemValue : Value) : Except String SchemaType :=
  match collectionItemValue with
  | .vmap m => do
    let mapType ← NewMapType m
    pure (SchemaType.mapType mapType)
  | .varray a => do
    let arrayType ← NewArrayType a
    pure (SchemaType.arrayType arrayType)
  | .vstr _ => pure (SchemaType.scalarType (ScalarType.mk (Value.vstr "")))
  | .vint _ => pure (SchemaType.scalarType (ScalarType.mk (Value.vint 0)))
  | .vbool _ => pure (SchemaType.scalarType (ScalarType.mk (Value.vbool false)))
  | .vnull => throw "Collection item type did not match any known types"
  | .vother _ => throw "Collection item type did not match any known types"

end

/-- `NewDocumentSchema` (schema.go:32-56): switch on the document's top-level
value; Map and Array values get a derived `ValueType`, anything else leaves it
absent (Go nil). -/
def NewDocumentSchema (doc : Document) : Except String DocumentSchema := do
  let docType : DocumentType ←
    match doc.Value with
    | .vmap m => do
      let valueType ← NewMapType m
      pure { Source := doc, ValueType := some (SchemaType.mapType valueType) }
    | .varray a => do
      let valueType ← NewArrayType a
      pure { Source := doc, ValueType := some (SchemaType.arrayType valueType) }
    | _ => pure { Source := doc, ValueType := none }
  pure { Name := "dataValues", Source := doc, Allowed := docType }

/-- `MapItemType.IsNullable` (schema.go:158-161): whether the stored
annotation set contains the nullable annotation. -/
def MapItemType.IsNullable (t : MapItemType) : Bool :=
  (MapItemType.anns t).contains AnnotationSchemaNullable

lemma newAnns_mem (ms : List String) (n : String) :
    n ∈ NewAnnotations ms ↔ n ∈ ms ∧ n = AnnotationSchemaNullable := by
  simp [NewAnnotations, List.mem_filter]

lemma newAnns_contains_true (ms : List String) (h : AnnotationSchemaNullable ∈ ms) :
    (NewAnnotations ms).contains AnnotationSchemaNullable = true := by
  simp [newAnns_mem, h]

lemma newAnns_contains_false (ms : List String) (h : AnnotationSchemaNullable ∉ ms) :
    (NewAnnotations ms).contains AnnotationSchemaNullable = false := by
  simp [newAnns_mem, h]

lemma newMapItemTypes_cons (item : MapItem) (rest : List MapItem) :
    NewMapItemTypes (item :: rest) =
      match NewMapItemType item with
      | Except.error e => Except.error e
      | Except.ok t =>
        match NewMapItemTypes rest with
        | Except.error e => Except.error e
        | Except.ok ts => Except.ok (t :: ts) := by
  simp only [NewMapItemTypes]
  cases NewMapItemType item with
  | error e => rfl
  | ok t =>
    cases NewMapItemTypes rest with
    | error e => rfl
    | ok ts => rfl

lemma newMapType_eq (items : List MapItem) (ms : List String) :
    NewMapType (Map.mk items ms) =
      match NewMapItemTypes items with
      | Except.error e => Except.error e
      | Except.ok ts =>
        Except.ok (MapType.mk
          (if (NewAnnotations ms).contains AnnotationSchemaNullable then [] else ts)) := by
  simp only [NewMapType]
  cases NewMapItemTypes items with
  | error e => rfl
  | ok ts =>
    cases h : (NewAnnotations ms).contains AnnotationSchemaNullable <;> simp [h]

lemma newMapItemType_eq (key : String) (value : Value) (pos : String) (ms : List String) :
    NewMapItemType (MapItem.mk key value pos ms) =
      match newCollectionItemValueType value with
      | Except.error e => Except.error e
      | Except.ok vt =>
        Except.ok (MapItemType.mk key vt
          (if (NewAnnotations ms).contains AnnotationSchemaNullable then Value.vnull
           else
             match value with
             | Value.varray _ => Value.varray (Array.mk [] [] "")
             | v => v)
          pos (NewAnnotations ms)) := by
  simp only [NewMapItemType]
  cases newCollectionItemValueType value with
  | error e => rfl
  | ok vt => rfl

lemma newArrayItemType_eq (value : Value) (pos : String) (ms : List String) :
    NewArrayItemType (ArrayItem.mk value pos ms) =
      match newCollectionItemValueType value with
      | Except.error e => Except.error e
      | Except.ok vt =>
        if (NewAnnotations ms).contains AnnotationSchemaNullable then
          Except.error ("Array items cannot be annotated with #@schema/nullable (" ++ pos ++
            "). If this behaviour would be valuable, please submit an issue on https://github.com/vmware-tanzu/carvel-ytt")
        else Except.ok (ArrayItemType.mk vt) := by
  simp only [NewArrayItemType]
  cases newCollectionItemValueType value with
  | error e => rfl
  | ok vt =>
    cases (NewAnnotations ms).contains AnnotationSchemaNullable <;> rfl

lemma newMapItemTypes_ok_spec :
    ∀ {items : List MapItem} {ts : List MapItemType}, NewMapItemTypes items = Except.ok ts →
      ts.length = items.length ∧
      ∀ i (h1 : i < items.length) (h2 : i < ts.length),
        NewMapItemType (items.get ⟨i, h1⟩) = Except.ok (ts.get ⟨i, h2⟩) := by
  intro items
  induction items with
  | nil =>
    intro ts h
    simp only [NewMapItemTypes] at h
    cases h
    exact ⟨rfl, fun i h1 _ => absurd h1 (Nat.not_lt_zero i)⟩
  | cons item rest ih =>
    intro ts h
    rw [newMapItemTypes_cons] at h
    cases hit : NewMapItemType item with
    | error e => rw [hit] at h; cases h
    | ok t =>
      rw [hit] at h
      cases hrest : NewMapItemTypes rest with
      | error e => rw [hrest] at h; cases h
      | ok ts2 =>
        rw [hrest] at h
        cases h
        obtain ⟨hlen, hget⟩ := ih hrest
        refine ⟨by simp [hlen], ?_⟩
        intro i h1 h2
        match i with
        | 0 => exact hit
        | Nat.succ j =>
          exact hget j (Nat.succ_lt_succ_iff.mp (by simpa using h1))
            (Nat.succ_lt_succ_iff.mp (by simpa using h2))

lemma newMapItemTypes_ok_mem :
    ∀ {items : List MapItem} {ts : List MapItemType}, NewMapItemTypes items = Except.ok ts →
      ∀ item ∈ items, ∃ t, NewMapItemType item = Except.ok t := by
  intro items
  induction items with
  | nil => intro ts _ item hmem; cases hmem
  | cons hd rest ih =>
    intro ts h item hmem
    rw [newMapItemTypes_cons] at h
    cases hit : NewMapItemType hd with
    | error e => rw [hit] at h; cases h
    | ok t =>
      rw [hit] at h
      cases hrest : NewMapItemTypes rest with
      | error e => rw [hrest] at h; cases h
      | ok ts2 =>
        cases List.mem_cons.mp hmem with
        | inl heq => exact ⟨t, heq ▸ hit⟩
        | inr hmem2 => exact ih hrest item hmem2

lemma newMapItemTypes_error_mem :
    ∀ {items : List MapItem} {e : String}, NewMapItemTypes items = Except.error e →
      ∃ item ∈ items, NewMapItemType item = Except.error e := by
  intro items
  induction items with
  | nil => intro e h; simp only [NewMapItemTypes] at h; cases h
  | cons hd rest ih =>
    intro e h
    rw [newMapItemTypes_cons] at h
    cases hit : NewMapItemType hd with
    | error e2 =>
      rw [hit] at h
      cases h
      exact ⟨hd, List.mem_cons_self hd rest, hit⟩
    | ok t =>
      rw [hit] at h
      cases hrest : NewMapItemTypes rest with
      | error e2 =>
        rw [hrest] at h
        cases h
        obtain ⟨item, hmem, herr⟩ := ih hrest
        exact ⟨item, List.mem_cons_of_mem hd hmem, herr⟩
      | ok ts2 => rw [hrest] at h; cases h

lemma unknown_msg_ne_nullable_msg (pos : String) :
    ("Collection item type did not match any known types" : String) ≠
      "Array items cannot be annotated with #@schema/nullable (" ++ pos ++
        "). If this behaviour would be valuable, please submit an issue on https://github.com/vmware-tanzu/carvel-ytt" := by
  intro hEq
  have h := congrArg String.length hEq
  rw [String.length_append, String.length_append] at h
  have e1 : ("Collection item type did not match any known types" : String).length = 50 := rfl
  have e2 : ("Array items cannot be annotated with #@schema/nullable (" : String).length = 56 := rfl
  have e3 : ("). If this behaviour would be valuable, please submit an issue on https://github.com/vmware-tanzu/carvel-ytt" : String).length = 108 := rfl
  rw [e1, e2, e3] at h
  omega

lemma newDocumentSchema_vmap (m : Map) (p : String) :
    NewDocumentSchema (Document.mk (Value.vmap m) p) =
      match NewMapType m with
      | Except.error e => Except.error e
      | Except.ok vt =>
        Except.ok (DocumentSchema.mk "dataValues" (Document.mk (Value.vmap m) p)
          (DocumentType.mk (Document.mk (Value.vmap m) p) (some (SchemaType.mapType vt)))) := by
  simp only [NewDocumentSchema]
  cases NewMapType m with
  | error e => rfl
  | ok vt => rfl

lemma newArrayType_eq (items : List ArrayItem) (ms : List String) (pos : String) :
    NewArrayType (Array.mk items ms pos) =
      match items with
      | [] =>
        Except.error ("Expected one item in array (describing the type of its elements) at " ++ pos)
      | [item] =>
        (match NewArrayItemType item with
         | Except.error e => Except.error e
         | Except.ok t => Except.ok (ArrayType.mk t))
      | _ =>
        Except.error ("Expected one item (found " ++ toString items.length ++
          ") in array (describing the type of its elements) at " ++ pos) := by
  cases items with
  | nil => rfl
  | cons x xs =>
    cases xs with
    | nil =>
      simp only [NewArrayType]
      cases NewArrayItemType x with
      | error e => rfl
      | ok t => rfl
    | cons y ys =>
      simp only [NewArrayType]
      rw [if_neg (by simp), if_pos (by simp only [List.length_cons]; omega)]
      rfl

/-- Claim C3: a MapItemType built from an item annotated nullable has
`IsNullable = true` and `DefaultValue` nil; without the annotation, the built
item type's `DefaultValue` equals the exemplar value, or an empty array when
the exemplar is an array. -/
theorem newMapItemType_nullable_roundtrip (item : MapItem) (t : MapItemType)
    (h : NewMapItemType item = Except.ok t) :
    (AnnotationSchemaNullable ∈ MapItem.metas item →
      MapItemType.IsNullable t = true ∧ MapItemType.DefaultValue t = Value.vnull) ∧
    (AnnotationSchemaNullable ∉ MapItem.metas item →
      MapItemType.IsNullable t = false ∧
      MapItemType.DefaultValue t =
        match MapItem.Value item with
        | Value.varray _ => Value.varray (Array.mk [] [] "")
        | v => v) := by
  obtain ⟨key, value, pos, ms⟩ := item
  rw [newMapItemType_eq] at h
  cases hv : newCollectionItemValueType value with
  | error e => rw [hv] at h; cases h
  | ok vt =>
    rw [hv] at h
    cases h
    constructor
    · intro hmem
      have hc := newAnns_contains_true ms (by simpa [MapItem.metas] using hmem)
      constructor
      · simp only [MapItemType.IsNullable, MapItemType.anns]
        exact hc
      · simp only [MapItemType.DefaultValue, hc]
        rfl
    · intro hnmem
      have hc := newAnns_contains_false ms (by simpa [MapItem.metas] using hnmem)
      constructor
      · simp only [MapItemType.IsNullable, MapItemType.anns]
        exact hc
      · simp only [MapItemType.DefaultValue, MapItem.Value, hc]
        rfl

/-- Witness for C3: a concrete nullable item (exemplar value 5) builds to an
item type that reports nullable and defaults to null. -/
theorem newMapItemType_nullable_roundtrip_witness :
    MapItemType.IsNullable (MapItemType.mk "a" (SchemaType.scalarType (ScalarType.mk (Value.vint 0)))
      Value.vnull "s:2" [AnnotationSchemaNullable]) = true ∧
    MapItemType.DefaultValue (MapItemType.mk "a" (SchemaType.scalarType (ScalarType.mk (Value.vint 0)))
      Value.vnull "s:2" [AnnotationSchemaNullable]) = Value.vnull :=
  (newMapItemType_nullable_roundtrip (MapItem.mk "a" (Value.vint 5) "s:2" [AnnotationSchemaNullable])
    (MapItemType.mk "a" (SchemaType.scalarType (ScalarType.mk (Value.vint 0)))
      Value.vnull "s:2" [AnnotationSchemaNullable]) rfl).1 (by decide)

/-- Claim C4: a MapType built from an exemplar map carrying the map-level
nullable annotation has an empty item sequence, however many fields the
exemplar had. -/
theorem newMapType_nullable_empty_items (m : Map) (t : MapType)
    (hn : AnnotationSchemaNullable ∈ Map.metas m)
    (h : NewMapType m = Except.ok t) :
    MapType.Items t = [] := by
  obtain ⟨items, ms⟩ := m
  rw [newMapType_eq] at h
  cases hts : NewMapItemTypes items with
  | error e => rw [hts] at h; cases h
  | ok ts =>
    rw [hts] at h
    have hc := newAnns_contains_true ms (by simpa [Map.metas] using hn)
    simp only [hc, if_true] at h
    cases h
    rfl

/-- Witness for C4: a nullable exemplar map with two fields builds to a
MapType whose item sequence is empty. -/
theorem newMapType_nullable_empty_items_witness :
    (Map.Items (Map.mk [MapItem.mk "a" (Value.vstr "x") "s:2" [],
      MapItem.mk "b" (Value.vint 1) "s:3" []] [AnnotationSchemaNullable])).length = 2 ∧
    MapType.Items (MapType.mk []) = [] :=
  ⟨rfl,
   newMapType_nullable_empty_items
     (Map.mk [MapItem.mk "a" (Value.vstr "x") "s:2" [],
       MapItem.mk "b" (Value.vint 1) "s:3" []] [AnnotationSchemaNullable])
     (MapType.mk []) (by decide) rfl⟩

/-- Claim C5 (amended): an array item annotated nullable whose value's type
builds successfully fails NewArrayItemType with the fixed nullable-array-item
error naming the item's position. -/
theorem newArrayItemType_nullable_error (item : ArrayItem)
    (hn : AnnotationSchemaNullable ∈ ArrayItem.metas item)
    (hv : (newCollectionItemValueType (ArrayItem.Value item)).isOk = true) :
    NewArrayItemType item = Except.error
      ("Array items cannot be annotated with #@schema/nullable (" ++ ArrayItem.GetPosition item ++
        "). If this behaviour would be valuable, please submit an issue on https://github.com/vmware-tanzu/carvel-ytt") := by
  obtain ⟨value, pos, ms⟩ := item
  simp only [ArrayItem.Value] at hv
  rw [newArrayItemType_eq]
  cases hval : newCollectionItemValueType value with
  | error e => rw [hval] at hv; simp [Except.isOk, Except.toBool] at hv
  | ok vt =>
    have hc := newAnns_contains_true ms (by simpa [ArrayItem.metas] using hn)
    simp only [hc, ArrayItem.GetPosition]
    rfl

/-- Witness for C5: a nullable array item with integer exemplar value fails
with the nullable-array-item error. -/
theorem newArrayItemType_nullable_error_witness :
    NewArrayItemType (ArrayItem.mk (Value.vint 7) "s:5" [AnnotationSchemaNullable]) =
      Except.error ("Array items cannot be annotated with #@schema/nullable (" ++ "s:5" ++
        "). If this behaviour would be valuable, please submit an issue on https://github.com/vmware-tanzu/carvel-ytt") :=
  newArrayItemType_nullable_error (ArrayItem.mk (Value.vint 7) "s:5" [AnnotationSchemaNullable])
    (by decide) rfl

/-- Counterexample to C5 as stated: a nullable array item whose value is of an
unrecognized kind fails with the unknown-value-kind error, not the
nullable-array-item error. -/
theorem newArrayItemType_nullable_unknown_counterexample :
    NewArrayItemType (ArrayItem.mk (Value.vother "0.5") "d:4" [AnnotationSchemaNullable]) =
      Except.error "Collection item type did not match any known types" ∧
    NewArrayItemType (ArrayItem.mk (Value.vother "0.5") "d:4" [AnnotationSchemaNullable]) ≠
      Except.error ("Array items cannot be annotated with #@schema/nullable (d:4). If this behaviour would be valuable, please submit an issue on https://github.com/vmware-tanzu/carvel-ytt") := by
  refine ⟨rfl, fun hEq => ?_⟩
  have h2 : (Except.error "Collection item type did not match any known types" :
      Except String ArrayItemType) =
    Except.error "Array items cannot be annotated with #@schema/nullable (d:4). If this behaviour would be valuable, please submit an issue on https://github.com/vmware-tanzu/carvel-ytt" := hEq
  simp only [Except.error.injEq] at h2
  exact absurd h2 (by decide)

/-- Claim C6 (amended): the exemplar dispatch maps a Map to NewMapType, an
Array to NewArrayType, and string/integer/boolean to a ScalarType of the
matching kind; every other kind — a null value included — yields the
unknown-value-kind error. -/
theorem newCollectionItemValueType_dispatch (v : Value) :
    newCollectionItemValueType v =
      match v with
      | Value.vmap m => Except.map SchemaType.mapType (NewMapType m)
      | Value.varray a => Except.map SchemaType.arrayType (NewArrayType a)
      | Value.vstr _ => Except.ok (SchemaType.scalarType (ScalarType.mk (Value.vstr "")))
      | Value.vint _ => Except.ok (SchemaType.scalarType (ScalarType.mk (Value.vint 0)))
      | Value.vbool _ => Except.ok (SchemaType.scalarType (ScalarType.mk (Value.vbool false)))
      | Value.vnull => Except.error "Collection item type did not match any known types"
      | Value.vother _ => Except.error "Collection item type did not match any known types" := by
  cases v with
  | vmap m =>
    simp only [newCollectionItemValueType]
    cases NewMapType m with
    | error e => rfl
    | ok t => rfl
  | varray a =>
    simp only [newCollectionItemValueType]
    cases NewArrayType a with
    | error e => rfl
    | ok t => rfl
  | vstr s => rfl
  | vint n => rfl
  | vbool b => rfl
  | vnull => rfl
  | vother s => rfl

/-- Counterexample to C6 as stated: a null exemplar value is an error — the
nil interface matches no case of the type switch. -/
theorem newCollectionItemValueType_null_counterexample :
    newCollectionItemValueType Value.vnull =
      Except.error "Collection item type did not match any known types" := rfl

/-- Claim C7: the annotation set stored on a built MapItemType (queried later
by IsNullable) contains only schema-recognized names — exactly "schema/nullable"
— and the nullable name is stored iff the node carried it. -/
theorem mapItemType_stored_anns_recognized (item : MapItem) (t : MapItemType)
    (h : NewMapItemType item = Except.ok t) :
    MapItemType.anns t = NewAnnotations (MapItem.metas item) ∧
    (∀ n ∈ MapItemType.anns t, n = AnnotationSchemaNullable) ∧
    (AnnotationSchemaNullable ∈ MapItemType.anns t ↔
      AnnotationSchemaNullable ∈ MapItem.metas item) := by
  obtain ⟨key, value, pos, ms⟩ := item
  rw [newMapItemType_eq] at h
  cases hv : newCollectionItemValueType value with
  | error e => rw [hv] at h; cases h
  | ok vt =>
    rw [hv] at h
    cases h
    refine ⟨by simp [MapItemType.anns, MapItem.metas], ?_, ?_⟩
    · intro n hn
      exact ((newAnns_mem ms n).mp (by simpa [MapItemType.anns] using hn)).2
    · simp [MapItemType.anns, MapItem.metas, newAnns_mem]

/-- Witness for C7: an item carrying one unrecognized and one nullable
annotation stores exactly the nullable one. -/
theorem mapItemType_stored_anns_recognized_witness :
    MapItemType.anns (MapItemType.mk "a" (SchemaType.scalarType (ScalarType.mk (Value.vstr "")))
      Value.vnull "s:2" [AnnotationSchemaNullable]) =
      NewAnnotations (MapItem.metas (MapItem.mk "a" (Value.vstr "x") "s:2"
        ["schema/title", AnnotationSchemaNullable])) ∧
    (∀ n ∈ MapItemType.anns (MapItemType.mk "a" (SchemaType.scalarType (ScalarType.mk (Value.vstr "")))
      Value.vnull "s:2" [AnnotationSchemaNullable]), n = AnnotationSchemaNullable) ∧
    (AnnotationSchemaNullable ∈ MapItemType.anns (MapItemType.mk "a"
      (SchemaType.scalarType (ScalarType.mk (Value.vstr ""))) Value.vnull "s:2"
      [AnnotationSchemaNullable]) ↔
      AnnotationSchemaNullable ∈ MapItem.metas (MapItem.mk "a" (Value.vstr "x") "s:2"
        ["schema/title", AnnotationSchemaNullable])) :=
  mapItemType_stored_anns_recognized
    (MapItem.mk "a" (Value.vstr "x") "s:2" ["schema/title", AnnotationSchemaNullable])
    (MapItemType.mk "a" (SchemaType.scalarType (ScalarType.mk (Value.vstr "")))
      Value.vnull "s:2" [AnnotationSchemaNullable]) rfl

/-- Claim C10: a ScalarType built from a scalar exemplar records only the
primitive kind — any two strings (integers, booleans) give equal ScalarTypes
wrapping the kind's zero value. -/
theorem scalarType_records_zero_value (s1 s2 : String) (n1 n2 : Int) (b1 b2 : Bool) :
    newCollectionItemValueType (Value.vstr s1) = newCollectionItemValueType (Value.vstr s2) ∧
    newCollectionItemValueType (Value.vstr s1) =
      Except.ok (SchemaType.scalarType (ScalarType.mk (Value.vstr ""))) ∧
    newCollectionItemValueType (Value.vint n1) = newCollectionItemValueType (Value.vint n2) ∧
    newCollectionItemValueType (Value.vint n1) =
      Except.ok (SchemaType.scalarType (ScalarType.mk (Value.vint 0))) ∧
    newCollectionItemValueType (Value.vbool b1) = newCollectionItemValueType (Value.vbool b2) ∧
    newCollectionItemValueType (Value.vbool b1) =
      Except.ok (SchemaType.scalarType (ScalarType.mk (Value.vbool false))) :=
  ⟨rfl, rfl, rfl, rfl, rfl, rfl⟩

/-- Claim C1 (amended): for a schema document whose top-level value is a Map,
provided every entry's item type builds and the map is not annotated nullable,
NewDocumentSchema succeeds with Name "dataValues", Source the document itself,
and Allowed.ValueType a MapType with one MapItemType per map entry, in order. -/
theorem newDocumentSchema_map_root_spec (d : Document) (m : Map) (ts : List MapItemType)
    (hd : Document.Value d = Value.vmap m)
    (hts : NewMapItemTypes (Map.Items m) = Except.ok ts)
    (hnn : AnnotationSchemaNullable ∉ Map.metas m) :
    NewDocumentSchema d = Except.ok
      (DocumentSchema.mk "dataValues" d
        (DocumentType.mk d (some (SchemaType.mapType (MapType.mk ts))))) ∧
    ts.length = (Map.Items m).length ∧
    (∀ i (h1 : i < (Map.Items m).length) (h2 : i < ts.length),
      NewMapItemType ((Map.Items m).get ⟨i, h1⟩) = Except.ok (ts.get ⟨i, h2⟩)) := by
  obtain ⟨hlen, hget⟩ := newMapItemTypes_ok_spec hts
  refine ⟨?_, hlen, hget⟩
  obtain ⟨v, p⟩ := d
  have hv : v = Value.vmap m := hd
  subst hv
  rw [newDocumentSchema_vmap]
  have hmt : NewMapType m = Except.ok (MapType.mk ts) := by
    obtain ⟨items, ms⟩ := m
    rw [newMapType_eq]
    simp only [Map.Items] at hts
    rw [hts]
    have hc := newAnns_contains_false ms (by simpa [Map.metas] using hnn)
    simp only [hc]
    rfl
  rw [hmt]

/-- Witness for C1: a two-entry schema document builds to a schema with two
item types, matching entries in order. -/
theorem newDocumentSchema_map_root_spec_witness :
    NewDocumentSchema (Document.mk (Value.vmap (Map.mk
        [MapItem.mk "a" (Value.vstr "x") "s:2" [], MapItem.mk "b" (Value.vint 1) "s:3" []] []))
      "s:1") = Except.ok
      (DocumentSchema.mk "dataValues"
        (Document.mk (Value.vmap (Map.mk
          [MapItem.mk "a" (Value.vstr "x") "s:2" [], MapItem.mk "b" (Value.vint 1) "s:3" []] []))
          "s:1")
        (DocumentType.mk
          (Document.mk (Value.vmap (Map.mk
            [MapItem.mk "a" (Value.vstr "x") "s:2" [], MapItem.mk "b" (Value.vint 1) "s:3" []] []))
            "s:1")
          (some (SchemaType.mapType (MapType.mk
            [MapItemType.mk "a" (SchemaType.scalarType (ScalarType.mk (Value.vstr "")))
              (Value.vstr "x") "s:2" [],
             MapItemType.mk "b" (SchemaType.scalarType (ScalarType.mk (Value.vint 0)))
              (Value.vint 1) "s:3" []]))))) ∧
    ([MapItemType.mk "a" (SchemaType.scalarType (ScalarType.mk (Value.vstr "")))
        (Value.vstr "x") "s:2" [],
      MapItemType.mk "b" (SchemaType.scalarType (ScalarType.mk (Value.vint 0)))
        (Value.vint 1) "s:3" []] : List MapItemType).length =
      (Map.Items (Map.mk
        [MapItem.mk "a" (Value.vstr "x") "s:2" [], MapItem.mk "b" (Value.vint 1) "s:3" []] [])).length ∧
    (∀ i (h1 : i < (Map.Items (Map.mk
        [MapItem.mk "a" (Value.vstr "x") "s:2" [], MapItem.mk "b" (Value.vint 1) "s:3" []] [])).length)
      (h2 : i < ([MapItemType.mk "a" (SchemaType.scalarType (ScalarType.mk (Value.vstr "")))
          (Value.vstr "x") "s:2" [],
        MapItemType.mk "b" (SchemaType.scalarType (ScalarType.mk (Value.vint 0)))
          (Value.vint 1) "s:3" []] : List MapItemType).length),
      NewMapItemType ((Map.Items (Map.mk
        [MapItem.mk "a" (Value.vstr "x") "s:2" [], MapItem.mk "b" (Value.vint 1) "s:3" []] [])).get
          ⟨i, h1⟩) =
        Except.ok (([MapItemType.mk "a" (SchemaType.scalarType (ScalarType.mk (Value.vstr "")))
            (Value.vstr "x") "s:2" [],
          MapItemType.mk "b" (SchemaType.scalarType (ScalarType.mk (Value.vint 0)))
            (Value.vint 1) "s:3" []] : List MapItemType).get ⟨i, h2⟩)) :=
  newDocumentSchema_map_root_spec
    (Document.mk (Value.vmap (Map.mk
      [MapItem.mk "a" (Value.vstr "x") "s:2" [], MapItem.mk "b" (Value.vint 1) "s:3" []] [])) "s:1")
    (Map.mk [MapItem.mk "a" (Value.vstr "x") "s:2" [], MapItem.mk "b" (Value.vint 1) "s:3" []] [])
    [MapItemType.mk "a" (SchemaType.scalarType (ScalarType.mk (Value.vstr "")))
      (Value.vstr "x") "s:2" [],
     MapItemType.mk "b" (SchemaType.scalarType (ScalarType.mk (Value.vint 0)))
      (Value.vint 1) "s:3" []]
    rfl rfl (by decide)

/-- Counterexample to C1 as stated: a schema document whose top-level map is
annotated nullable succeeds, but with zero MapItemTypes for one map entry. -/
theorem newDocumentSchema_nullable_root_counterexample :
    NewDocumentSchema (Document.mk
      (Value.vmap (Map.mk [MapItem.mk "a" (Value.vstr "x") "s:2" []] [AnnotationSchemaNullable]))
      "s:1") = Except.ok
      (DocumentSchema.mk "dataValues"
        (Document.mk (Value.vmap (Map.mk [MapItem.mk "a" (Value.vstr "x") "s:2" []]
          [AnnotationSchemaNullable])) "s:1")
        (DocumentType.mk
          (Document.mk (Value.vmap (Map.mk [MapItem.mk "a" (Value.vstr "x") "s:2" []]
            [AnnotationSchemaNullable])) "s:1")
          (some (SchemaType.mapType (MapType.mk []))))) ∧
    (Map.Items (Map.mk [MapItem.mk "a" (Value.vstr "x") "s:2" []]
      [AnnotationSchemaNullable])).length = 1 :=
  ⟨rfl, rfl⟩

/-- Claim C2 (amended): NewArrayType errors on an empty exemplar array, errors
reporting the actual count on more than one item, and succeeds with the single
item's derived type when that item's type builds. -/
theorem newArrayType_spec (a : Array) :
    (Array.Items a = [] →
      NewArrayType a = Except.error
        ("Expected one item in array (describing the type of its elements) at " ++
          Array.Position a)) ∧
    (1 < (Array.Items a).length →
      NewArrayType a = Except.error
        ("Expected one item (found " ++ toString (Array.Items a).length ++
          ") in array (describing the type of its elements) at " ++ Array.Position a)) ∧
    (∀ item t, Array.Items a = [item] → NewArrayItemType item = Except.ok t →
      NewArrayType a = Except.ok (ArrayType.mk t)) := by
  obtain ⟨items, ms, pos⟩ := a
  simp only [Array.Items, Array.Position]
  rw [newArrayType_eq]
  refine ⟨?_, ?_, ?_⟩
  · intro h; subst h; rfl
  · intro h
    cases items with
    | nil => simp at h
    | cons x xs =>
      cases xs with
      | nil => simp at h
      | cons y ys => rfl
  · intro item t hi ht
    subst hi
    dsimp only
    rw [ht]

/-- Witness for C2: an empty array errors, a two-item array errors naming the
count 2, and a one-item integer array succeeds with integer item type. -/
theorem newArrayType_spec_witness :
    NewArrayType (Array.mk [] [] "s:4") =
      Except.error ("Expected one item in array (describing the type of its elements) at " ++
        "s:4") ∧
    NewArrayType (Array.mk [ArrayItem.mk (Value.vint 1) "s:5" [],
        ArrayItem.mk (Value.vint 2) "s:6" []] [] "s:4") =
      Except.error ("Expected one item (found " ++ toString (2 : Nat) ++
        ") in array (describing the type of its elements) at " ++ "s:4") ∧
    NewArrayType (Array.mk [ArrayItem.mk (Value.vint 1) "s:5" []] [] "s:4") =
      Except.ok (ArrayType.mk (ArrayItemType.mk (SchemaType.scalarType
        (ScalarType.mk (Value.vint 0))))) :=
  ⟨(newArrayType_spec (Array.mk [] [] "s:4")).1 rfl,
   (newArrayType_spec (Array.mk [ArrayItem.mk (Value.vint 1) "s:5" [],
      ArrayItem.mk (Value.vint 2) "s:6" []] [] "s:4")).2.1 (by decide),
   (newArrayType_spec (Array.mk [ArrayItem.mk (Value.vint 1) "s:5" []] [] "s:4")).2.2
     (ArrayItem.mk (Value.vint 1) "s:5" [])
     (ArrayItemType.mk (SchemaType.scalarType (ScalarType.mk (Value.vint 0)))) rfl rfl⟩

/-- Counterexample to C2 as stated: a one-item exemplar array whose single
item is a null value fails rather than succeeding. -/
theorem newArrayType_single_bad_item_counterexample :
    NewArrayType (Array.mk [ArrayItem.mk Value.vnull "s:5" []] [] "s:4") =
      Except.error "Collection item type did not match any known types" ∧
    (Array.Items (Array.mk [ArrayItem.mk Value.vnull "s:5" []] [] "s:4")).length = 1 :=
  ⟨rfl, rfl⟩

/-- Claim C8: a nullable exemplar map still builds every item's type before
discarding them — a malformed contained exemplar fails the whole build with a
failing item's error instead of succeeding with an empty item sequence. -/
theorem newMapType_nullable_builds_items (m : Map)
    (hn : AnnotationSchemaNullable ∈ Map.metas m)
    (item : MapItem) (hmem : item ∈ Map.Items m)
    (e : String) (he : NewMapItemType item = Except.error e) :
    ∃ e2, NewMapType m = Except.error e2 ∧
      ∃ item2 ∈ Map.Items m, NewMapItemType item2 = Except.error e2 := by
  obtain ⟨items, ms⟩ := m
  simp only [Map.Items] at hmem ⊢
  rw [newMapType_eq]
  cases hts : NewMapItemTypes items with
  | ok ts =>
    obtain ⟨t, ht⟩ := newMapItemTypes_ok_mem hts item hmem
    rw [ht] at he
    cases he
  | error e2 =>
    obtain ⟨item2, hmem2, herr⟩ := newMapItemTypes_error_mem hts
    exact ⟨e2, rfl, item2, hmem2, herr⟩

/-- Witness for C8: a nullable map with a single entry whose exemplar is an
empty array fails with that entry's malformed-array error. -/
theorem newMapType_nullable_builds_items_witness :
    ∃ e2, NewMapType (Map.mk
        [MapItem.mk "bad" (Value.varray (Array.mk [] [] "s:3")) "s:2" []]
        [AnnotationSchemaNullable]) = Except.error e2 ∧
      ∃ item2 ∈ Map.Items (Map.mk
        [MapItem.mk "bad" (Value.varray (Array.mk [] [] "s:3")) "s:2" []]
        [AnnotationSchemaNullable]), NewMapItemType item2 = Except.error e2 :=
  newMapType_nullable_builds_items
    (Map.mk [MapItem.mk "bad" (Value.varray (Array.mk [] [] "s:3")) "s:2" []]
      [AnnotationSchemaNullable])
    (by decide)
    (MapItem.mk "bad" (Value.varray (Array.mk [] [] "s:3")) "s:2" [])
    (by simp [Map.Items])
    "Expected one item in array (describing the type of its elements) at s:3" rfl

/-- Claim C9: NewArrayItemType builds the value's type before inspecting the
nullable annotation — a nullable item of unrecognized value kind gets the
unknown-value-kind error, not the nullable-array-item error, which is returned
only when the value's type builds. -/
theorem newArrayItemType_value_built_first (value : Value) (pos : String) (ms : List String)
    (hn : AnnotationSchemaNullable ∈ ms) :
    (∀ e, newCollectionItemValueType value = Except.error e →
      NewArrayItemType (ArrayItem.mk value pos ms) = Except.error e) ∧
    (∀ s, value = Value.vother s →
      NewArrayItemType (ArrayItem.mk value pos ms) =
        Except.error "Collection item type did not match any known types" ∧
      NewArrayItemType (ArrayItem.mk value pos ms) ≠
        Except.error ("Array items cannot be annotated with #@schema/nullable (" ++ pos ++
          "). If this behaviour would be valuable, please submit an issue on https://github.com/vmware-tanzu/carvel-ytt")) ∧
    (∀ t, newCollectionItemValueType value = Except.ok t →
      NewArrayItemType (ArrayItem.mk value pos ms) =
        Except.error ("Array items cannot be annotated with #@schema/nullable (" ++ pos ++
          "). If this behaviour would be valuable, please submit an issue on https://github.com/vmware-tanzu/carvel-ytt")) := by
  have hc := newAnns_contains_true ms hn
  refine ⟨?_, ?_, ?_⟩
  · intro e he
    rw [newArrayItemType_eq, he]
  · intro s hs
    subst hs
    have h1 : NewArrayItemType (ArrayItem.mk (Value.vother s) pos ms) =
        Except.error "Collection item type did not match any known types" := by
      rw [newArrayItemType_eq]
      simp only [newCollectionItemValueType]
    refine ⟨h1, ?_⟩
    rw [h1]
    intro hEq
    simp only [Except.error.injEq] at hEq
    exact unknown_msg_ne_nullable_msg pos hEq
  · intro t ht
    rw [newArrayItemType_eq, ht]
    simp only [hc]
    rfl

/-- Witness for C9: a nullable array item with a float-like value gets the
unknown-value-kind error, not the nullable-array-item error. -/
theorem newArrayItemType_value_built_first_witness :
    NewArrayItemType (ArrayItem.mk (Value.vother "1.5") "d:7" [AnnotationSchemaNullable]) =
      Except.error "Collection item type did not match any known types" ∧
    NewArrayItemType (ArrayItem.mk (Value.vother "1.5") "d:7" [AnnotationSchemaNullable]) ≠
      Except.error ("Array items cannot be annotated with #@schema/nullable (" ++ "d:7" ++
        "). If this behaviour would be valuable, please submit an issue on https://github.com/vmware-tanzu/carvel-ytt") :=
  (newArrayItemType_value_built_first (Value.vother "1.5") "d:7" [AnnotationSchemaNullable]
    (by decide)).2.1 "1.5" rfl

end yamlmeta
